import Mathlib

/-!
# Verification of the MapToPoster cache subsystem (`cache_manager.py`)

A shallow embedding of the `CacheManager` class from `src/cache_manager.py`.

Modelling conventions:
* Time is measured in whole seconds (`Int`); a TTL of `d` days is `d * 86400`
  seconds.  `datetime.now() - fromtimestamp(mtime)` becomes `now - mtime`.
* A cache directory is a `List CacheFile`; each file carries its name, its
  last-modified time, its byte size and its content.
* Python floats are idealised as exact rationals (`ℚ`); `round(x, n)` is
  round-half-to-even at `n` decimal digits, which is Python's rounding mode.
* `_generate_key` serialises `{args, kwargs}` with
  `json.dumps(..., sort_keys=True)` and returns the md5 hex digest of that
  string.  Every call site passes positional arguments only (strings, ints,
  floats), so the serialisation is determined by the ordered argument list,
  and `json.dumps` is injective on such lists (strings are quoted, ints are
  bare digit runs, floats carry a decimal point or exponent, and the
  list order is preserved).  The composite digest function is therefore
  deterministic, and injective exactly when md5 does not collide — the spec
  treats collisions as negligible.  We model the digest by the canonical
  content it hashes, `KeyDigest` carrying the ordered argument list: equal
  arguments give equal digests, and distinct arguments give distinct
  digests (the no-collision assumption).
* An artifact name is either `keyed digest ext` — the code's
  `f"{cache_key}{ext}"`, a 32-hex-character digest followed by the
  extension — or `plain s`, any other file name (cache directories may
  contain foreign files; the code globs over whatever is present).  A keyed
  name matches the glob `*ext'` exactly when its extension equals `ext'`
  (a hex digest contains no dot), and a plain name matches when `ext'` is a
  suffix of it.
* `file.unlink()` may fail; which files fail is an explicit parameter
  `fails : FileName → Bool` of the operations that delete.  An uncaught
  Python exception is modelled by `Except.error`.
-/

namespace MapToPoster

/-- A Python value passed to `CacheManager._generate_key`. -/
inductive PyVal where
  | str (s : String)
  | int (n : Int)
  | float (q : ℚ)
deriving DecidableEq

/-- The md5 hex digest of the canonical `json.dumps` serialisation, modelled
by the content that is hashed (see the header: the serialisation is
injective on the argument lists the call sites supply, and md5 is assumed
collision-free, so digest equality coincides with content equality). -/
structure KeyDigest where
  data : List PyVal
deriving DecidableEq

/-- `CacheManager._generate_key`:
`json.dumps({"args": args, "kwargs": kwargs}, sort_keys=True)` followed by
`hashlib.md5(...).hexdigest()`.  All call sites pass positional arguments
only, so `kwargs` is always empty. -/
def generate_key (args : List PyVal) : KeyDigest :=
  ⟨args⟩

/-- Round half to even to an integer — the rounding mode of Python's
built-in `round`. -/
def roundHalfEven (q : ℚ) : Int :=
  let f : Int := ⌊q⌋
  let frac : ℚ := q - f
  if frac < 1/2 then f
  else if 1/2 < frac then f + 1
  else if f % 2 = 0 then f else f + 1

/-- Python's `round(x, ndigits)` on an idealised (exact) float. -/
def pyRound (q : ℚ) (ndigits : Nat) : ℚ :=
  (roundHalfEven (q * 10 ^ ndigits) : ℚ) / 10 ^ ndigits

/-- ASCII lower-casing of one character, as Python's `str.lower` acts on
the ASCII range (code points 65–90 map to 97–122). -/
def asciiLowerChar (c : Char) : Char :=
  if 65 ≤ c.toNat ∧ c.toNat ≤ 90 then Char.ofNat (c.toNat + 32) else c

/-- Python's `str.lower` (restricted to ASCII, which covers every claim). -/
def pyLower (s : String) : String :=
  String.mk (s.data.map asciiLowerChar)

/-- `a` and `b` are the same character up to ASCII letter case: equal, or
the same letter with `a` upper and `b` lower, or vice versa. -/
def sameLetterUpToCase (a b : Char) : Bool :=
  decide (a = b)
  || (decide (65 ≤ a.toNat) && decide (a.toNat ≤ 90) && decide (b.toNat = a.toNat + 32))
  || (decide (65 ≤ b.toNat) && decide (b.toNat ≤ 90) && decide (a.toNat = b.toNat + 32))

/-- Character lists of equal length whose entries agree up to letter case. -/
def onlyCaseDiffers : List Char → List Char → Bool
  | [], [] => true
  | a :: as, b :: bs => sameLetterUpToCase a b && onlyCaseDiffers as bs
  | _, _ => false

/-- Two strings differ only in (ASCII) letter case. -/
def differOnlyInCase (s t : String) : Bool :=
  onlyCaseDiffers s.data t.data

/-- Content of one cache artifact.  A geocoding artifact that `json.load`
parses into a record with `latitude`/`longitude` keys is `geoRecord`
(the code also stores the original city/country strings and a creation
timestamp); an artifact whose deserialisation fails is `malformed`;
`blob` stands for an opaque pickled bundle or poster image. -/
inductive Content where
  | geoRecord (city country : String) (lat lon : ℚ) (cachedAt : Int)
  | blob (id : Nat)
  | malformed
deriving DecidableEq

/-- The name of a file found in a cache directory: an artifact name written
by the cache (`keyed`: digest followed by extension) or any other file
name (`plain`). -/
inductive FileName where
  | keyed (key : KeyDigest) (ext : String)
  | plain (s : String)
deriving DecidableEq

/-- Whether `ext` is a suffix of the character list `s` — the meaning of the
glob pattern `*ext` on a plain name. -/
def suffixMatch (ext s : List Char) : Bool :=
  decide (s.drop (s.length - ext.length) = ext)

/-- Whether a file name matches the glob `*ext`.  A keyed name
`digest ++ e` ends in `ext` exactly when `e = ext`, because the digest is
32 hex characters and the extensions in play all start with a dot. -/
def FileName.matchesGlob : FileName → String → Bool
  | .keyed _ e, ext => decide (e = ext)
  | .plain s, ext => suffixMatch ext.data s.data

/-- One file in a cache directory: name, `st_mtime` (seconds), `st_size`
(bytes), content. -/
structure CacheFile where
  name : FileName
  mtime : Int
  size : Nat
  content : Content
deriving DecidableEq

/-- The three cache directories owned by `CacheManager`. -/
structure CacheState where
  geocoding : List CacheFile
  osm_data : List CacheFile
  posters : List CacheFile
deriving DecidableEq

/-- `self.geocoding_ttl = 90`. -/
def geocoding_ttl : Int := 90
/-- `self.osm_ttl = 7`. -/
def osm_ttl : Int := 7
/-- `self.poster_ttl = 30`. -/
def poster_ttl : Int := 30

/-- Seconds in a day, the conversion behind `timedelta(days=ttl_days)`. -/
def daySeconds : Int := 86400

/-- `CacheManager._is_cache_valid`: `False` when the file does not exist;
otherwise `False` when `now - file_time > timedelta(days=ttl_days)`, else
`True`. -/
def is_cache_valid (file : Option CacheFile) (now : Int) (ttl_days : Int) : Bool :=
  match file with
  | none => false
  | some f => !(decide (now - f.mtime > ttl_days * daySeconds))

/-- The validity predicate as §3/§4.1 of the spec words it: the artifact
exists, and its age is *strictly* less than the TTL ("equality at the
boundary counts as expired").  Kept separate from `is_cache_valid` so the
two can be compared. -/
def specValid (file : Option CacheFile) (now : Int) (ttl_days : Int) : Bool :=
  match file with
  | none => false
  | some f => decide (now - f.mtime < ttl_days * daySeconds)

/-- Lookup of the artifact with the given name, if present. -/
def findFile (dir : List CacheFile) (name : FileName) : Option CacheFile :=
  dir.find? (fun f => f.name = name)

/-- The geocoding cache key: `_generate_key(city.lower(), country.lower())`
(lines 79 and 105). -/
def geo_key (city country : String) : KeyDigest :=
  generate_key [.str (pyLower city), .str (pyLower country)]

/-- The geocoding artifact name `f"{cache_key}.json"`. -/
def geoFileName (city country : String) : FileName :=
  .keyed (geo_key city country) ".json"

/-- The OSM-data cache key: coordinates rounded to 4 decimal places, then
`_generate_key(lat_rounded, lon_rounded, distance, network_type)`
(lines 140–143). -/
def osm_key (lat lon : ℚ) (distance : Int) (network_type : String) : KeyDigest :=
  generate_key [.float (pyRound lat 4), .float (pyRound lon 4),
                .int distance, .str network_type]

/-- `CacheManager.get_geocoding`: derive the key, check validity with the
90-day TTL; on a valid artifact parse it — any read/parse failure is
caught and yields `None` — else report a miss (`None`). -/
def get_geocoding (st : CacheState) (now : Int) (city country : String) :
    Option (ℚ × ℚ) :=
  let file := findFile st.geocoding (geoFileName city country)
  if is_cache_valid file now geocoding_ttl then
    match file with
    | some f =>
        match f.content with
        | .geoRecord _ _ lat lon _ => some (lat, lon)
        | _ => none
    | none => none
  else
    none

/-- Insert-or-overwrite an artifact by name (`open(cache_file, 'w')` on an
existing path overwrites it). -/
def upsert (dir : List CacheFile) (f : CacheFile) : List CacheFile :=
  if dir.any (fun g => g.name = f.name) then
    dir.map (fun g => if g.name = f.name then f else g)
  else
    dir ++ [f]

/-- `CacheManager.set_geocoding`: write the record under the derived key; a
write failure is caught and logged, leaving the state unchanged
(`writeOk = false`).  The artifact's byte size is not modelled for writes
(no claim relates a write to the statistics). -/
def set_geocoding (st : CacheState) (now : Int) (city country : String)
    (lat lon : ℚ) (writeOk : Bool) : CacheState :=
  if writeOk then
    let f : CacheFile :=
      ⟨geoFileName city country, now, 0, .geoRecord city country lat lon now⟩
    { st with geocoding := upsert st.geocoding f }
  else
    st

/-- One directory pass of `CacheManager.clear_cache`: `file.unlink()` on
every file, each wrapped in `try/except`, so a failed deletion is logged
and the loop continues; exactly the files whose deletion failed remain. -/
def clear_dir (dir : List CacheFile) (fails : FileName → Bool) : List CacheFile :=
  dir.filter (fun f => fails f.name)

/-- `CacheManager.clear_cache`: `directories.get(cache_type, [])` selects
the directories to sweep (an unknown `cache_type` selects none); every
file of each selected directory is unlinked with per-file exception
handling.  The function is total: it never raises. -/
def clear_cache (st : CacheState) (cache_type : String) (fails : FileName → Bool) :
    CacheState :=
  if cache_type = "all" then
    { geocoding := clear_dir st.geocoding fails,
      osm_data := clear_dir st.osm_data fails,
      posters := clear_dir st.posters fails }
  else if cache_type = "geocoding" then
    { st with geocoding := clear_dir st.geocoding fails }
  else if cache_type = "osm" then
    { st with osm_data := clear_dir st.osm_data fails }
  else if cache_type = "posters" then
    { st with posters := clear_dir st.posters fails }
  else
    st

/-- Per-category statistics of `get_cache_stats`: entry count and size in
megabytes. -/
structure DirStats where
  count : Nat
  size_mb : ℚ
deriving DecidableEq

/-- The nested `get_dir_stats` helper of `CacheManager.get_cache_stats`:
`count = len(files)` and `size_mb = round(total_size / (1024*1024), 2)`. -/
def get_dir_stats (dir : List CacheFile) : DirStats :=
  { count := dir.length,
    size_mb := pyRound (((dir.map (fun f => (f.size : ℚ))).sum) / (1024 * 1024)) 2 }

/-- The record returned by `CacheManager.get_cache_stats`. -/
structure CacheStats where
  geocoding : DirStats
  osm_data : DirStats
  posters : DirStats
  total_size_mb : ℚ
deriving DecidableEq

/-- `CacheManager.get_cache_stats`: per-directory stats for the three
categories, and a total that sums the three *already rounded* `size_mb`
values (the comprehension calls `get_dir_stats` afresh per directory) and
rounds that sum to 2 decimal places again. -/
def get_cache_stats (st : CacheState) : CacheStats :=
  { geocoding := get_dir_stats st.geocoding,
    osm_data := get_dir_stats st.osm_data,
    posters := get_dir_stats st.posters,
    total_size_mb := pyRound
      ((get_dir_stats st.geocoding).size_mb + ((get_dir_stats st.osm_data).size_mb
        + (get_dir_stats st.posters).size_mb)) 2 }

/-- Whether `cleanup_expired` selects this file for deletion in a directory
swept with glob `*ext` and TTL `ttl`: the name matches the glob and
`_is_cache_valid` is false. -/
def sweepTarget (ext : String) (ttl now : Int) (f : CacheFile) : Bool :=
  f.name.matchesGlob ext && !(is_cache_valid (some f) now ttl)

/-- One directory pass of `CacheManager.cleanup_expired`: iterate the files
matching the glob, unlink each invalid one and count it.  This `unlink`
call is **not** wrapped in `try/except`, so the first failed deletion
raises out of the whole method (`Except.error` carrying the file name;
files already deleted stay deleted, a partial state no claim needs). -/
def cleanup_dir (ext : String) (ttl now : Int) (fails : FileName → Bool) :
    List CacheFile → Except FileName (List CacheFile × Nat)
  | [] => .ok ([], 0)
  | f :: rest =>
    if sweepTarget ext ttl now f then
      if fails f.name then
        .error f.name
      else
        match cleanup_dir ext ttl now fails rest with
        | .error e => .error e
        | .ok (d, n) => .ok (d, n + 1)
    else
      match cleanup_dir ext ttl now fails rest with
      | .error e => .error e
      | .ok (d, n) => .ok (f :: d, n)

/-- `CacheManager.cleanup_expired`: sweep `*.json` in geocoding (TTL 90),
`*.pkl` in osm_data (TTL 7), `*.png` in posters (TTL 30); return the
total number removed.  An unlink failure propagates as an uncaught
exception. -/
def cleanup_expired (st : CacheState) (now : Int) (fails : FileName → Bool) :
    Except FileName (CacheState × Nat) :=
  match cleanup_dir ".json" geocoding_ttl now fails st.geocoding with
  | .error e => .error e
  | .ok (g, n1) =>
    match cleanup_dir ".pkl" osm_ttl now fails st.osm_data with
    | .error e => .error e
    | .ok (o, n2) =>
      match cleanup_dir ".png" poster_ttl now fails st.posters with
      | .error e => .error e
      | .ok (p, n3) => .ok (⟨g, o, p⟩, n1 + n2 + n3)

/-- The all-deletions-succeed environment. -/
def noFail : FileName → Bool := fun _ => false

/-! Concrete states used to instantiate the general theorems. -/

/-- An artifact whose age at the probed instant is exactly the TTL. -/
def boundaryFile : CacheFile := ⟨.plain "k.json", 0, 10, .blob 0⟩

/-- A cache state holding a single expired geocoding artifact `old.json`
(age 91 days against the 90-day TTL). -/
def staleState : CacheState := ⟨[⟨.plain "old.json", 0, 3, .blob 1⟩], [], []⟩

/-- Deletion of `old.json` fails; every other deletion succeeds. -/
def failOldJson : FileName → Bool := fun n => decide (n = .plain "old.json")

/-- A second stale state, for instantiating the amended deletion-failure
theorem. -/
def staleState2 : CacheState := ⟨[⟨.plain "a.json", 0, 1, .blob 2⟩], [], []⟩

/-- Deletion of `a.json` fails; every other deletion succeeds. -/
def failAJson : FileName → Bool := fun n => decide (n = .plain "a.json")

/-- A fresh but malformed geocoding artifact stored under the key derived
from ("Paris", "France"). -/
def corruptState : CacheState :=
  ⟨[⟨geoFileName "Paris" "France", 0, 5, .malformed⟩], [], []⟩

/-- Three one-file directories of 5243 bytes each: every category rounds to
0.01 MB and the reported total is round(0.03) = 0.03 MB, while rounding
the unrounded sum 15729/2^20 MB would give 0.02 MB. -/
def statsDemoState : CacheState :=
  ⟨[⟨.plain "g.json", 0, 5243, .blob 3⟩],
   [⟨.plain "o.pkl", 0, 5243, .blob 4⟩],
   [⟨.plain "p.png", 0, 5243, .blob 5⟩]⟩

/-- A foreign file — wrong extension for its directory — sitting in the
geocoding directory. -/
def junkFile : CacheFile := ⟨.plain "junk.txt", 0, 7, .blob 6⟩

/-- A cache state whose geocoding directory holds only `junk.txt`. -/
def junkState : CacheState := ⟨[junkFile], [], []⟩

/-! Shared lemmas. -/

/-- Characters that agree up to ASCII case lower-case identically. -/
theorem asciiLowerChar_eq_of_same (a b : Char) (h : sameLetterUpToCase a b = true) :
    asciiLowerChar a = asciiLowerChar b := by
  simp only [sameLetterUpToCase, Bool.or_eq_true, Bool.and_eq_true,
    decide_eq_true_eq] at h
  unfold asciiLowerChar
  rcases h with (h | ⟨⟨h1, h2⟩, h3⟩) | ⟨⟨h1, h2⟩, h3⟩
  · rw [h]
  · have hb : ¬(65 ≤ b.toNat ∧ b.toNat ≤ 90) := by omega
    rw [if_pos ⟨h1, h2⟩, if_neg hb, ← h3, Char.ofNat_toNat]
  · have ha : ¬(65 ≤ a.toNat ∧ a.toNat ≤ 90) := by omega
    rw [if_neg ha, if_pos ⟨h1, h2⟩, ← h3, Char.ofNat_toNat]

/-- Character lists that agree up to ASCII case lower-case identically. -/
theorem map_asciiLower_eq_of_onlyCase : ∀ (as bs : List Char),
    onlyCaseDiffers as bs = true → as.map asciiLowerChar = bs.map asciiLowerChar
  | [], [], _ => rfl
  | a :: as, b :: bs, h => by
      simp only [onlyCaseDiffers, Bool.and_eq_true] at h
      simp only [List.map_cons, asciiLowerChar_eq_of_same a b h.1,
        map_asciiLower_eq_of_onlyCase as bs h.2]
  | [], _ :: _, h => by simp [onlyCaseDiffers] at h
  | _ :: _, [], h => by simp [onlyCaseDiffers] at h

/-- Strings that differ only in case lower-case identically. -/
theorem pyLower_eq_of_differOnlyInCase (s t : String)
    (h : differOnlyInCase s t = true) : pyLower s = pyLower t := by
  unfold pyLower
  rw [map_asciiLower_eq_of_onlyCase s.data t.data h]

/-- Replacing the entry named like `f` makes the first name hit return `f`. -/
theorem find_replace (f : CacheFile) : ∀ (dir : List CacheFile),
    dir.any (fun g => decide (g.name = f.name)) = true →
    (dir.map (fun g => if g.name = f.name then f else g)).find?
        (fun g => decide (g.name = f.name)) = some f
  | [], h => by simp at h
  | a :: as, h => by
      by_cases ha : a.name = f.name
      · simp [List.find?, ha]
      · have h' : as.any (fun g => decide (g.name = f.name)) = true := by
          simpa [List.any_cons, ha] using h
        simp [List.find?, ha, find_replace f as h']

/-- Appending `f` to a directory without its name makes lookup return `f`. -/
theorem find_appended (f : CacheFile) : ∀ (dir : List CacheFile),
    dir.any (fun g => decide (g.name = f.name)) = false →
    (dir ++ [f]).find? (fun g => decide (g.name = f.name)) = some f
  | [], _ => by simp [List.find?]
  | a :: as, h => by
      simp only [List.any_cons, Bool.or_eq_false_iff] at h
      have ha : ¬(a.name = f.name) := by simpa using h.1
      simp [List.find?, ha, find_appended f as h.2]

/-- After `upsert`, looking up the new artifact's name returns it. -/
theorem findFile_upsert (dir : List CacheFile) (f : CacheFile) :
    findFile (upsert dir f) f.name = some f := by
  unfold upsert findFile
  by_cases h : dir.any (fun g => decide (g.name = f.name)) = true
  · rw [if_pos ?_]
    · exact find_replace f dir h
    · simpa using h
  · rw [if_neg ?_]
    · exact find_appended f dir (by simpa using Bool.of_not_eq_true h)
    · simpa using h

/-- With no deletion failures, a sweep pass keeps exactly the non-targets
and counts exactly the targets. -/
theorem cleanup_dir_noFail (ext : String) (ttl now : Int) : ∀ (dir : List CacheFile),
    cleanup_dir ext ttl now noFail dir
      = .ok (dir.filter (fun f => !sweepTarget ext ttl now f),
             (dir.filter (fun f => sweepTarget ext ttl now f)).length)
  | [] => rfl
  | f :: rest => by
      by_cases h : sweepTarget ext ttl now f = true
      · simp [cleanup_dir, h, noFail, cleanup_dir_noFail ext ttl now rest,
          List.filter_cons]
      · simp [cleanup_dir, h, noFail, cleanup_dir_noFail ext ttl now rest,
          List.filter_cons]

/-- A sweep pass over a directory with no targets removes nothing. -/
theorem cleanup_dir_clean (ext : String) (ttl now : Int) (dir : List CacheFile)
    (h : ∀ f ∈ dir, sweepTarget ext ttl now f = false) :
    cleanup_dir ext ttl now noFail dir = .ok (dir, 0) := by
  rw [cleanup_dir_noFail]
  have h1 : dir.filter (fun f => !sweepTarget ext ttl now f) = dir :=
    List.filter_eq_self.mpr (by intro a ha; simp [h a ha])
  have h2 : dir.filter (fun f => sweepTarget ext ttl now f) = [] :=
    List.filter_eq_nil_iff.mpr (by intro a ha; simp [h a ha])
  rw [h1, h2]
  rfl

/-- With no deletion failures, `cleanup_expired` succeeds and filters each
directory by its sweep predicate. -/
theorem cleanup_expired_noFail (st : CacheState) (now : Int) :
    cleanup_expired st now noFail
      = .ok (⟨st.geocoding.filter (fun f => !sweepTarget ".json" geocoding_ttl now f),
              st.osm_data.filter (fun f => !sweepTarget ".pkl" osm_ttl now f),
              st.posters.filter (fun f => !sweepTarget ".png" poster_ttl now f)⟩,
             (st.geocoding.filter (fun f => sweepTarget ".json" geocoding_ttl now f)).length
             + (st.osm_data.filter (fun f => sweepTarget ".pkl" osm_ttl now f)).length
             + (st.posters.filter (fun f => sweepTarget ".png" poster_ttl now f)).length) := by
  unfold cleanup_expired
  rw [cleanup_dir_noFail, cleanup_dir_noFail, cleanup_dir_noFail]

/-- Every never-matched file name makes `clear_dir` drop everything. -/
theorem clear_dir_noFail (dir : List CacheFile) : clear_dir dir noFail = [] :=
  List.filter_eq_nil_iff.mpr (by intro a _; simp [noFail])

/-! Claim theorems. -/

/-- C1, counterexample: an artifact whose age is exactly `ttlDays` (90 days
here) is reported **valid** by `_is_cache_valid`, while the claim — age
strictly below the TTL, boundary expired (`specValid`) — calls it invalid. -/
theorem validity_boundary_counterexample :
    90 * daySeconds - boundaryFile.mtime = 90 * daySeconds ∧
    is_cache_valid (some boundaryFile) (90 * daySeconds) 90 = true ∧
    specValid (some boundaryFile) (90 * daySeconds) 90 = false := by
  decide

/-- C1, amended: `_is_cache_valid` returns true iff the artifact exists and
now minus its last-modified time is **at most** `ttlDays` days — equality
at the boundary counts as still valid, so an entry exactly `ttlDays` in
the past is reported valid (and a fortiori one `ttlDays` minus 1 second in
the past), while one `ttlDays` days plus one second in the past is
invalid. -/
theorem validity_window_characterization (file : Option CacheFile) (now ttl : Int) :
    is_cache_valid file now ttl = true ↔
      ∃ f, file = some f ∧ now - f.mtime ≤ ttl * daySeconds := by
  cases file with
  | none => simp [is_cache_valid]
  | some f => simp [is_cache_valid]

/-- C2, counterexample: one expired geocoding artifact whose deletion
fails makes `cleanup_expired` raise (its `unlink` is not wrapped in
`try/except`), contradicting "the batch operation continues to completion
rather than aborting (it never raises)". -/
theorem cleanup_failure_counterexample :
    cleanup_expired staleState (91 * daySeconds) failOldJson
      = .error (.plain "old.json") := rfl

/-- C2, amended: a deletion failure during `clear_cache` is logged and
skipped and the batch continues to completion (exactly the files whose
deletion failed remain, independent of any earlier failure);
`cleanup_expired` with no deletion failures completes and returns a count,
but a deletion failure on the first expired entry it meets propagates as
an exception, aborting the sweep without returning a count. -/
theorem deletion_failure_tolerance (st : CacheState) (now : Int)
    (fails : FileName → Bool) :
    (clear_cache st "all" fails).geocoding
        = st.geocoding.filter (fun f => fails f.name)
    ∧ (clear_cache st "all" fails).osm_data
        = st.osm_data.filter (fun f => fails f.name)
    ∧ (clear_cache st "all" fails).posters
        = st.posters.filter (fun f => fails f.name)
    ∧ (∃ st₁ n, cleanup_expired st now noFail = .ok (st₁, n))
    ∧ (∀ f rest, st.geocoding = f :: rest →
        sweepTarget ".json" geocoding_ttl now f = true → fails f.name = true →
        cleanup_expired st now fails = .error f.name) := by
  refine ⟨by simp [clear_cache, clear_dir], by simp [clear_cache, clear_dir],
    by simp [clear_cache, clear_dir], ⟨_, _, cleanup_expired_noFail st now⟩, ?_⟩
  intro f rest hsplit htarget hfails
  unfold cleanup_expired
  rw [hsplit]
  unfold cleanup_dir
  rw [if_pos htarget, if_pos hfails]

/-- C2, witness for the amended theorem at a concrete stale state. -/
theorem deletion_failure_tolerance_witness :
    cleanup_expired staleState2 (91 * daySeconds) failAJson
      = .error (.plain "a.json") :=
  (deletion_failure_tolerance staleState2 (91 * daySeconds) failAJson).2.2.2.2
    ⟨.plain "a.json", 0, 1, .blob 2⟩ [] rfl (by decide) (by decide)

/-- C3, counterexample: latitudes 0.00002 and 0.00006 differ by 0.00004,
below 0.00005, and the longitudes agree, yet they round to 0.0 and 0.0001
at 4 decimal places, so the derived feature-bundle keys differ. -/
theorem osm_key_proximity_counterexample :
    |(2/100000 : ℚ) - 6/100000| < 5/100000 ∧ |(0 : ℚ) - 0| < 5/100000 ∧
    osm_key (2/100000) 0 1000 "all" ≠ osm_key (6/100000) 0 1000 "all" := by
  refine ⟨by rw [abs_sub_comm, abs_of_pos (by norm_num)]; norm_num,
    by rw [abs_sub_comm, abs_of_nonneg (by norm_num)]; norm_num, ?_⟩
  simp only [osm_key, generate_key, KeyDigest.mk.injEq, List.cons.injEq,
    PyVal.float.injEq, and_imp, ne_eq]
  intro h
  norm_num [pyRound, roundHalfEven] at h

/-- C3, amended: two (lat, lon) pairs whose coordinates are equal **after
rounding to 4 decimal places** in each axis, with the same distance and
network type, derive the identical feature-bundle cache key (so they hit
the same osm_data entry). -/
theorem osm_key_same_after_rounding (lat₁ lon₁ lat₂ lon₂ : ℚ) (d : Int)
    (nt : String) (hlat : pyRound lat₁ 4 = pyRound lat₂ 4)
    (hlon : pyRound lon₁ 4 = pyRound lon₂ 4) :
    osm_key lat₁ lon₁ d nt = osm_key lat₂ lon₂ d nt := by
  unfold osm_key
  rw [hlat, hlon]

/-- C3, witness: 0.12341 and 0.123412 round alike, and their keys agree. -/
theorem osm_key_same_after_rounding_witness :
    pyRound (12341/100000 : ℚ) 4 = pyRound (123412/1000000 : ℚ) 4 ∧
    osm_key (12341/100000) (5/10) 500 "drive"
      = osm_key (123412/1000000) (5/10) 500 "drive" :=
  ⟨by norm_num [pyRound, roundHalfEven],
   osm_key_same_after_rounding _ _ _ _ 500 "drive"
     (by norm_num [pyRound, roundHalfEven]) rfl⟩

/-- C4: two (city, country) pairs that differ only in letter case derive
the same geocoding digest — the code lower-cases both strings before
hashing.  Identical inputs are the reflexive instance (the embedding is a
function, so determinism is definitional). -/
theorem geo_key_case_insensitive (c₁ co₁ c₂ co₂ : String)
    (hc : differOnlyInCase c₁ c₂ = true) (hco : differOnlyInCase co₁ co₂ = true) :
    geo_key c₁ co₁ = geo_key c₂ co₂ := by
  unfold geo_key generate_key
  rw [pyLower_eq_of_differOnlyInCase _ _ hc, pyLower_eq_of_differOnlyInCase _ _ hco]

/-- C4, witness: "London"/"LONDON" with "uk"/"UK" share one digest. -/
theorem geo_key_case_insensitive_witness :
    differOnlyInCase "London" "LONDON" = true ∧
    geo_key "London" "uk" = geo_key "LONDON" "UK" :=
  ⟨by decide, geo_key_case_insensitive _ _ _ _ (by decide) (by decide)⟩

/-- C5: `set_geocoding` followed immediately by `get_geocoding` for the
same city and country (no time elapsed, the write succeeded) returns
exactly the stored pair. -/
theorem geocoding_roundtrip (st : CacheState) (now : Int) (city country : String)
    (lat lon : ℚ) :
    get_geocoding (set_geocoding st now city country lat lon true) now city country
      = some (lat, lon) := by
  unfold get_geocoding set_geocoding
  simp only [if_true]
  rw [show (geoFileName city country) =
    (⟨geoFileName city country, now, 0,
      Content.geoRecord city country lat lon now⟩ : CacheFile).name from rfl,
    findFile_upsert]
  norm_num [is_cache_valid, geocoding_ttl, daySeconds]

/-- C6: a geocoding artifact that exists under the derived key, is within
TTL, but whose content is malformed (deserialization fails) makes
`get_geocoding` return `none` — the same result as a cache miss; the
embedding is a total function, so no exception escapes. -/
theorem corrupt_entry_is_miss (st : CacheState) (now : Int) (city country : String)
    (f : CacheFile)
    (hfind : findFile st.geocoding (geoFileName city country) = some f)
    (hcontent : f.content = .malformed)
    (hvalid : is_cache_valid (some f) now geocoding_ttl = true) :
    get_geocoding st now city country = none := by
  unfold get_geocoding
  rw [hfind, if_pos hvalid]
  simp [hcontent]

/-- C6, witness: a fresh malformed artifact for (Paris, France). -/
theorem corrupt_entry_is_miss_witness :
    get_geocoding corruptState 0 "Paris" "France" = none :=
  corrupt_entry_is_miss corruptState 0 "Paris" "France"
    ⟨geoFileName "Paris" "France", 0, 5, .malformed⟩ rfl rfl (by decide)

/-- C7: each category's reported size is its byte total over 2^20, rounded
to 2 decimal places, and `total_size_mb` re-rounds the sum of the three
already-rounded values; at `statsDemoState` this differs from rounding the
unrounded sum (0.03 vs 0.02), so the rounding order is observable. -/
theorem stats_rounding_order (st : CacheState) :
    (get_cache_stats st).geocoding.size_mb
        = pyRound (((st.geocoding.map (fun f => (f.size : ℚ))).sum) / (1024 * 1024)) 2
    ∧ (get_cache_stats st).osm_data.size_mb
        = pyRound (((st.osm_data.map (fun f => (f.size : ℚ))).sum) / (1024 * 1024)) 2
    ∧ (get_cache_stats st).posters.size_mb
        = pyRound (((st.posters.map (fun f => (f.size : ℚ))).sum) / (1024 * 1024)) 2
    ∧ (get_cache_stats st).total_size_mb
        = pyRound ((get_cache_stats st).geocoding.size_mb
            + ((get_cache_stats st).osm_data.size_mb
              + (get_cache_stats st).posters.size_mb)) 2
    ∧ (get_cache_stats statsDemoState).total_size_mb
        ≠ pyRound ((((statsDemoState.geocoding ++ statsDemoState.osm_data
              ++ statsDemoState.posters).map (fun f => (f.size : ℚ))).sum
            / (1024 * 1024))) 2 := by
  refine ⟨rfl, rfl, rfl, rfl, ?_⟩
  simp only [statsDemoState, get_cache_stats, get_dir_stats, List.map_cons,
    List.map_nil, List.sum_cons, List.sum_nil, List.cons_append, List.nil_append]
  norm_num [pyRound, roundHalfEven]

/-- C8: clearing the geocoding category (deletions succeeding) empties it —
its reported count drops to 0 and its directory is empty — while the
osm_data and posters directories, and their reported statistics, are
unchanged. -/
theorem clear_geocoding_frame (st : CacheState) :
    (get_cache_stats (clear_cache st "geocoding" noFail)).geocoding.count = 0
    ∧ (clear_cache st "geocoding" noFail).geocoding = []
    ∧ (clear_cache st "geocoding" noFail).osm_data = st.osm_data
    ∧ (clear_cache st "geocoding" noFail).posters = st.posters
    ∧ (get_cache_stats (clear_cache st "geocoding" noFail)).osm_data
        = (get_cache_stats st).osm_data
    ∧ (get_cache_stats (clear_cache st "geocoding" noFail)).posters
        = (get_cache_stats st).posters := by
  have hclear : clear_cache st "geocoding" noFail = ⟨[], st.osm_data, st.posters⟩ := by
    unfold clear_cache
    rw [if_neg (by decide), if_pos rfl, clear_dir_noFail]
  refine ⟨?_, ?_, ?_, ?_, ?_, ?_⟩ <;> rw [hclear] <;> rfl

/-- Membership in a swept directory, for a glob-matching file, is exactly
validity. -/
theorem mem_swept_iff (ext : String) (ttl now : Int) (dir : List CacheFile)
    (f : CacheFile) (hf : f ∈ dir) (hglob : f.name.matchesGlob ext = true) :
    f ∈ dir.filter (fun g => !sweepTarget ext ttl now g)
      ↔ is_cache_valid (some f) now ttl = true := by
  rw [List.mem_filter]
  constructor
  · intro h
    have hp := h.2
    simpa [sweepTarget, hglob] using hp
  · intro hv
    exact ⟨hf, by simp [sweepTarget, hglob, hv]⟩

/-- A second sweep over already-swept directories removes nothing. -/
theorem second_sweep (st : CacheState) (now : Int) :
    cleanup_expired
      ⟨st.geocoding.filter (fun f => !sweepTarget ".json" geocoding_ttl now f),
       st.osm_data.filter (fun f => !sweepTarget ".pkl" osm_ttl now f),
       st.posters.filter (fun f => !sweepTarget ".png" poster_ttl now f)⟩ now noFail
    = .ok (⟨st.geocoding.filter (fun f => !sweepTarget ".json" geocoding_ttl now f),
            st.osm_data.filter (fun f => !sweepTarget ".pkl" osm_ttl now f),
            st.posters.filter (fun f => !sweepTarget ".png" poster_ttl now f)⟩, 0) := by
  have h1 : ∀ f ∈ st.geocoding.filter (fun f => !sweepTarget ".json" geocoding_ttl now f),
      sweepTarget ".json" geocoding_ttl now f = false := by
    intro a ha
    simpa using (List.mem_filter.mp ha).2
  have h2 : ∀ f ∈ st.osm_data.filter (fun f => !sweepTarget ".pkl" osm_ttl now f),
      sweepTarget ".pkl" osm_ttl now f = false := by
    intro a ha
    simpa using (List.mem_filter.mp ha).2
  have h3 : ∀ f ∈ st.posters.filter (fun f => !sweepTarget ".png" poster_ttl now f),
      sweepTarget ".png" poster_ttl now f = false := by
    intro a ha
    simpa using (List.mem_filter.mp ha).2
  unfold cleanup_expired
  rw [cleanup_dir_clean _ _ _ _ h1, cleanup_dir_clean _ _ _ _ h2,
    cleanup_dir_clean _ _ _ _ h3]

/-- C9: with deletions succeeding, `cleanup_expired` returns the total count
of glob-matching invalid files across the three categories; among the
glob-matching files of each category — the artifacts the spec calls
entries — exactly the invalid ones are removed; and an immediate second
sweep (no time elapsed, nothing added) removes 0. -/
theorem cleanup_exactly_invalid (st : CacheState) (now : Int) :
    ∃ st₁ : CacheState,
      cleanup_expired st now noFail
        = .ok (st₁,
            (st.geocoding.filter (fun f => sweepTarget ".json" geocoding_ttl now f)).length
            + (st.osm_data.filter (fun f => sweepTarget ".pkl" osm_ttl now f)).length
            + (st.posters.filter (fun f => sweepTarget ".png" poster_ttl now f)).length)
      ∧ (∀ f ∈ st.geocoding, f.name.matchesGlob ".json" = true →
          (f ∈ st₁.geocoding ↔ is_cache_valid (some f) now geocoding_ttl = true))
      ∧ (∀ f ∈ st.osm_data, f.name.matchesGlob ".pkl" = true →
          (f ∈ st₁.osm_data ↔ is_cache_valid (some f) now osm_ttl = true))
      ∧ (∀ f ∈ st.posters, f.name.matchesGlob ".png" = true →
          (f ∈ st₁.posters ↔ is_cache_valid (some f) now poster_ttl = true))
      ∧ cleanup_expired st₁ now noFail = .ok (st₁, 0) := by
  refine ⟨_, cleanup_expired_noFail st now, ?_, ?_, ?_, second_sweep st now⟩
  · intro f hf hglob
    exact mem_swept_iff ".json" geocoding_ttl now st.geocoding f hf hglob
  · intro f hf hglob
    exact mem_swept_iff ".pkl" osm_ttl now st.osm_data f hf hglob
  · intro f hf hglob
    exact mem_swept_iff ".png" poster_ttl now st.posters f hf hglob

/-- C10: a file whose name does not match its category's glob (`*.json`
for geocoding, `*.pkl` for osm_data, `*.png` for posters) is never removed
by `cleanup_expired`, however old it is; yet `clear_cache` on that
category deletes it, and `get_cache_stats` counts it (the count is the
full directory length). -/
theorem non_entry_behavior (st : CacheState) (now : Int) :
    (∀ f ∈ st.geocoding, f.name.matchesGlob ".json" = false →
      (∃ st₁ n, cleanup_expired st now noFail = .ok (st₁, n) ∧ f ∈ st₁.geocoding)
      ∧ f ∉ (clear_cache st "geocoding" noFail).geocoding)
    ∧ (∀ f ∈ st.osm_data, f.name.matchesGlob ".pkl" = false →
      (∃ st₁ n, cleanup_expired st now noFail = .ok (st₁, n) ∧ f ∈ st₁.osm_data)
      ∧ f ∉ (clear_cache st "osm" noFail).osm_data)
    ∧ (∀ f ∈ st.posters, f.name.matchesGlob ".png" = false →
      (∃ st₁ n, cleanup_expired st now noFail = .ok (st₁, n) ∧ f ∈ st₁.posters)
      ∧ f ∉ (clear_cache st "posters" noFail).posters)
    ∧ (get_cache_stats st).geocoding.count = st.geocoding.length
    ∧ (get_cache_stats st).osm_data.count = st.osm_data.length
    ∧ (get_cache_stats st).posters.count = st.posters.length := by
  have hg : (clear_cache st "geocoding" noFail).geocoding = [] := by
    unfold clear_cache
    rw [if_neg (by decide), if_pos rfl, clear_dir_noFail]
  have ho : (clear_cache st "osm" noFail).osm_data = [] := by
    unfold clear_cache
    rw [if_neg (by decide), if_neg (by decide), if_pos rfl, clear_dir_noFail]
  have hp : (clear_cache st "posters" noFail).posters = [] := by
    unfold clear_cache
    rw [if_neg (by decide), if_neg (by decide), if_neg (by decide), if_pos rfl,
      clear_dir_noFail]
  refine ⟨?_, ?_, ?_, rfl, rfl, rfl⟩
  · intro f hf hglob
    refine ⟨⟨_, _, cleanup_expired_noFail st now, ?_⟩, ?_⟩
    · exact List.mem_filter.mpr ⟨hf, by simp [sweepTarget, hglob]⟩
    · rw [hg]
      exact List.not_mem_nil f
  · intro f hf hglob
    refine ⟨⟨_, _, cleanup_expired_noFail st now, ?_⟩, ?_⟩
    · exact List.mem_filter.mpr ⟨hf, by simp [sweepTarget, hglob]⟩
    · rw [ho]
      exact List.not_mem_nil f
  · intro f hf hglob
    refine ⟨⟨_, _, cleanup_expired_noFail st now, ?_⟩, ?_⟩
    · exact List.mem_filter.mpr ⟨hf, by simp [sweepTarget, hglob]⟩
    · rw [hp]
      exact List.not_mem_nil f

/-- C10, witness: `junk.txt` in the geocoding directory survives the sweep,
is deleted by the clear, and is counted by the statistics. -/
theorem non_entry_behavior_witness :
    ((∃ st₁ n, cleanup_expired junkState 0 noFail = .ok (st₁, n)
        ∧ junkFile ∈ st₁.geocoding)
      ∧ junkFile ∉ (clear_cache junkState "geocoding" noFail).geocoding)
    ∧ (get_cache_stats junkState).geocoding.count = junkState.geocoding.length :=
  ⟨(non_entry_behavior junkState 0).1 junkFile (by decide) (by decide),
   (non_entry_behavior junkState 0).2.2.2.1⟩

end MapToPoster
